import Mathlib

/-
Verification of the mosaic.js client library core: hash-lock construction
(src/utils/Utils.js), the demo anchor-wait loop (Demo/Facilitate.js), the
EIP20Gateway / EIP20CoGateway contract-interact validation and caching logic
(src/ContractInteract/EIP20Gateway.js, src/ContractInteract/EIP20CoGateway.js),
and the facilitator progress-redeem policy.

JavaScript values that the validated parameters range over are modelled by
`JSVal` (strings, numbers, undefined).  External collaborators are
parameters: the Keccak-256 hash (web3-utils keccak256), the address
validator (web3-utils isAddress) and the arbitrary-precision integer
constructor (bn.js `new BN`, modelled as a partial parse returning
`Option Int`, `none` meaning the constructor throws).
-/

/-- A JavaScript value as far as the library's runtime type checks observe it:
a string, a number, or `undefined`. -/
inductive JSVal where
  | str : String → JSVal
  | num : Int → JSVal
  | undef : JSVal
  deriving DecidableEq, Repr

/-- `typeof v === 'string'`. -/
def typeofIsString : JSVal → Bool
  | JSVal.str _ => true
  | _ => false

/-- JavaScript truthiness of an optionally-present string field
(`undefined` and the empty string are falsy; every other string is truthy). -/
def jsTruthyOptStr : Option String → Bool
  | none => false
  | some s => !s.isEmpty

/-- `Web3.utils.isAddress` applied to an arbitrary JS value: the library
passes the raw argument to web3-utils, which string-tests it; only string
inputs can pass, and the string-level predicate `isAddress` itself is the
external collaborator. -/
def jsIsAddress (isAddress : String → Bool) : JSVal → Bool
  | JSVal.str s => isAddress s
  | _ => false

/-- `new BN(amount)` applied to an arbitrary JS value: numbers are taken as
integers, `undefined` makes the constructor throw (`none`), and string
parsing is the external bn.js behaviour `bnParse` (`none` meaning the
constructor throws). -/
def jsBNParse (bnParse : String → Option Int) : JSVal → Option Int
  | JSVal.str s => bnParse s
  | JSVal.num n => some n
  | JSVal.undef => none

/-- Reads a non-empty, all-digit character list as a base-10 natural number. -/
def decDigitsVal (l : List Char) : Option Nat :=
  if l ≠ [] && l.all Char.isDigit then
    some (l.foldl (fun acc c => acc * 10 + (c.toNat - 48)) 0)
  else none

/-- Reference base-10 integer parser: an optional minus sign followed by one
or more decimal digits.  Used only to instantiate the external bn.js
constructor parameter in concrete witnesses. -/
def bnParseModel (s : String) : Option Int :=
  match s.toList with
  | [] => none
  | c :: rest =>
    if c = '-' then (decDigitsVal rest).map (fun n => -(n : Int))
    else (decDigitsVal (c :: rest)).map (fun n => (n : Int))

/-- Reference account-address predicate (`0x` followed by 40 lowercase hex
digits).  Used only to instantiate the external web3-utils address validator
parameter in concrete witnesses. -/
def isAddressModel (s : String) : Bool :=
  match s.toList with
  | '0' :: 'x' :: rest =>
    rest.length = 40 && rest.all (fun c => c.isDigit || ('a' ≤ c && c ≤ 'f'))
  | _ => false

/-- The spec's well-formedness predicate for a message hash: a 32-byte hex
identifier, i.e. `0x` followed by 64 hex digits.  This definition follows the
spec's words; it is compared against the validation the source actually
performs. -/
def isWellFormed32ByteHex (s : String) : Bool :=
  match s.toList with
  | '0' :: 'x' :: rest =>
    rest.length = 64 &&
      rest.all
        (fun c => c.isDigit || ('a' ≤ c && c ≤ 'f') || ('A' ≤ c && c ≤ 'F'))
  | _ => false

/-- The `HashLock` record returned by `Utils.toHashLock`
(src/src/utils/Utils.js lines 45-53). -/
structure HashLock where
  secret : String
  unlockSecret : String
  hashLock : String
  deriving DecidableEq, Repr

/-- `Utils.toHashLock` (src/src/utils/Utils.js lines 45-53), parameterised by
the external Keccak-256 hash `keccak256` (web3-utils):
`unlockSecret = keccak256(secretString)`, `hashLock = keccak256(unlockSecret)`. -/
def Utils.toHashLock (keccak256 : String → String) (secretString : String) : HashLock :=
  let unlockSecret := keccak256 secretString
  let hashLock := keccak256 unlockSecret
  { secret := secretString, unlockSecret := unlockSecret, hashLock := hashLock }

/-- Possible outcomes of the demo anchor-wait loop.  The source can only ever
produce `success` (resolve) or keep polling (`stillWaiting` once the modelled
observations run out); `anchorWaitTimeout` is included so the spec's claimed
timeout failure is statable, but no branch of the source produces it. -/
inductive WaitOutcome where
  | success
  | stillWaiting
  | anchorWaitTimeout
  deriving DecidableEq, Repr

/-- `Facilitate.waitForStateRootCommit` (src/Demo/Facilitate.js lines 157-182)
over the sequence of block heights successively returned by
`anchor.getLatestStateRootBlockHeight()`.  Each recursion step is one poll:
`shouldWait = transactionBlockNumber.gte(latestBlockHeight)`; when it still
holds the code sleeps and recurses, otherwise it resolves.  When the modelled
observation list is exhausted the loop is still polling (`stillWaiting`);
the source has no timeout branch. -/
def Facilitate.waitForStateRootCommit (blockNumber : Nat) : List Nat → WaitOutcome
  | [] => WaitOutcome.stillWaiting
  | latestBlockHeight :: rest =>
    if blockNumber ≥ latestBlockHeight then
      Facilitate.waitForStateRootCommit blockNumber rest
    else WaitOutcome.success

/-- The message lifecycle statuses (spec section 3; `Message.messageStatus()`
in the source's tests). -/
inductive MessageStatus where
  | Undeclared
  | Declared
  | Progressed
  | DeclaredRevocation
  | Revoked
  deriving DecidableEq, Repr

/-- The typed error of the facilitator's progress policy. -/
inductive FacilitatorError where
  | MessageNotProgressable
  deriving DecidableEq, Repr

/-- Modelled from the spec: `Facilitator.performProgressRedeem`
(src/Facilitator/Facilitator.js is not included under src/; only its test,
test/EIP20CoGateway/getOutboxMessageStatus.js second suite, is).  Per spec
sections 4.2 and 4.5 the operation checks the outbox message status first; a
message may be progressed only when that status is `Declared`, in which case
`coGateway.progressRedeem` is submitted exactly once and the receipt's
success flag is returned; otherwise it rejects with `MessageNotProgressable`
before submitting anything.  The second component counts the
`coGateway.progressRedeem` invocations. -/
def Facilitator.performProgressRedeem (outboxStatus : MessageStatus) :
    Except FacilitatorError Bool × Nat :=
  match outboxStatus with
  | MessageStatus.Declared => (Except.ok true, 1)
  | _ => (Except.error FacilitatorError.MessageNotProgressable, 0)

/-- The library's typed validation errors, one constructor per distinct
`TypeError` message raised by the modelled code. -/
inductive JsError where
  | bnInvalidNumber
  | stakeAmountNotGreaterThanZero
  | redeemAmountNotGreaterThanZero
  | invalidBeneficiary
  | invalidGasPrice
  | invalidGasLimit
  | invalidNonce
  | invalidHashLock
  | invalidMessageHash
  | invalidAccountAddress
  | invalidTxOptions
  | invalidFromAddress
  deriving DecidableEq, Repr

/-- A contract-method invocation (`this.contract.methods.<m>(...)`): the only
way the modelled raw-transaction builders touch the underlying contract. -/
inductive ContractCall where
  | stake (amount beneficiary gasPrice gasLimit nonce hashLock : JSVal)
  | redeem (amount beneficiary gasPrice gasLimit nonce hashLock : JSVal)
  deriving DecidableEq, Repr

/-- Outcome of a raw-transaction builder: a synchronous throw (an exception
escaping the non-async function), a rejected promise, or the constructed
contract-method transaction object. -/
inductive RawTxResult where
  | thrown (e : JsError)
  | rejected (e : JsError)
  | tx (call : ContractCall)
  deriving DecidableEq, Repr

/-- Outcome of a top-level write operation: a synchronous throw, a rejected
promise, or a transaction submitted to the network via
`Utils.sendTransaction` (the only network call in these paths). -/
inductive SendOutcome where
  | thrown (e : JsError)
  | rejected (e : JsError)
  | sent (call : ContractCall)
  deriving DecidableEq, Repr

/-- The `txOptions` object fields consulted by the modelled operations. -/
structure TxOption where
  fromAddress : JSVal
  gas : Option String
  gasPrice : Option String
  value : Option String
  deriving DecidableEq, Repr

/-- `EIP20Gateway.stakeRawTx` (src/src/ContractInteract/EIP20Gateway.js lines
490-529): `new BN(amount)` is evaluated first — if the bn.js constructor
throws, the exception escapes synchronously; otherwise `!amountBN.gtn(0)`
rejects non-positive amounts before any further validation, then beneficiary
(isAddress), gasPrice / gasLimit (`=== undefined` checks), nonce and hashLock
(`typeof string` checks) are validated, and only then is
`contract.methods.stake(...)` constructed. -/
def EIP20Gateway.stakeRawTx (bnParse : String → Option Int)
    (isAddress : String → Bool)
    (amount beneficiary gasPrice gasLimit nonce hashLock : JSVal) :
    RawTxResult :=
  match jsBNParse bnParse amount with
  | none => RawTxResult.thrown JsError.bnInvalidNumber
  | some amountBN =>
    if ¬ amountBN > 0 then
      RawTxResult.rejected JsError.stakeAmountNotGreaterThanZero
    else if ¬ jsIsAddress isAddress beneficiary then
      RawTxResult.rejected JsError.invalidBeneficiary
    else if gasPrice = JSVal.undef then
      RawTxResult.rejected JsError.invalidGasPrice
    else if gasLimit = JSVal.undef then
      RawTxResult.rejected JsError.invalidGasLimit
    else if ¬ typeofIsString nonce then
      RawTxResult.rejected JsError.invalidNonce
    else if ¬ typeofIsString hashLock then
      RawTxResult.rejected JsError.invalidHashLock
    else
      RawTxResult.tx
        (ContractCall.stake amount beneficiary gasPrice gasLimit nonce hashLock)

/-- `EIP20CoGateway.redeemRawTx` (src/src/ContractInteract/EIP20CoGateway.js
lines 757-795): same shape as `stakeRawTx`, except gasPrice and gasLimit are
validated with `typeof string` checks. -/
def EIP20CoGateway.redeemRawTx (bnParse : String → Option Int)
    (isAddress : String → Bool)
    (amount beneficiary gasPrice gasLimit nonce hashLock : JSVal) :
    RawTxResult :=
  match jsBNParse bnParse amount with
  | none => RawTxResult.thrown JsError.bnInvalidNumber
  | some amountBN =>
    if ¬ amountBN > 0 then
      RawTxResult.rejected JsError.redeemAmountNotGreaterThanZero
    else if ¬ jsIsAddress isAddress beneficiary then
      RawTxResult.rejected JsError.invalidBeneficiary
    else if ¬ typeofIsString gasPrice then
      RawTxResult.rejected JsError.invalidGasPrice
    else if ¬ typeofIsString gasLimit then
      RawTxResult.rejected JsError.invalidGasLimit
    else if ¬ typeofIsString nonce then
      RawTxResult.rejected JsError.invalidNonce
    else if ¬ typeofIsString hashLock then
      RawTxResult.rejected JsError.invalidHashLock
    else
      RawTxResult.tx
        (ContractCall.redeem amount beneficiary gasPrice gasLimit nonce hashLock)

/-- `EIP20Gateway.stake` (src/src/ContractInteract/EIP20Gateway.js lines
457-476): rejects when `txOptions` is falsy or `txOptions.from` is not an
address, then builds the raw transaction and sends it via
`Utils.sendTransaction`.  A synchronous throw inside `stakeRawTx` escapes
`stake` synchronously as well (neither function is `async`). -/
def EIP20Gateway.stake (bnParse : String → Option Int)
    (isAddress : String → Bool)
    (amount beneficiary gasPrice gasLimit nonce hashLock : JSVal)
    (txOptions : Option TxOption) : SendOutcome :=
  match txOptions with
  | none => SendOutcome.rejected JsError.invalidTxOptions
  | some opts =>
    if ¬ jsIsAddress isAddress opts.fromAddress then
      SendOutcome.rejected JsError.invalidFromAddress
    else
      match EIP20Gateway.stakeRawTx bnParse isAddress amount beneficiary
        gasPrice gasLimit nonce hashLock with
      | RawTxResult.thrown e => SendOutcome.thrown e
      | RawTxResult.rejected e => SendOutcome.rejected e
      | RawTxResult.tx call => SendOutcome.sent call

/-- `EIP20CoGateway.redeem` (src/src/ContractInteract/EIP20CoGateway.js lines
723-743): rejects when `txOptions` is falsy or `txOptions.from` is not an
address, then builds the raw transaction and sends it. -/
def EIP20CoGateway.redeem (bnParse : String → Option Int)
    (isAddress : String → Bool)
    (amount beneficiary gasPrice gasLimit nonce hashLock : JSVal)
    (txOptions : Option TxOption) : SendOutcome :=
  match txOptions with
  | none => SendOutcome.rejected JsError.invalidTxOptions
  | some opts =>
    if ¬ jsIsAddress isAddress opts.fromAddress then
      SendOutcome.rejected JsError.invalidFromAddress
    else
      match EIP20CoGateway.redeemRawTx bnParse isAddress amount beneficiary
        gasPrice gasLimit nonce hashLock with
      | RawTxResult.thrown e => SendOutcome.thrown e
      | RawTxResult.rejected e => SendOutcome.rejected e
      | RawTxResult.tx call => SendOutcome.sent call

/-- Outcome of a message-status read: a rejected promise, or a read-only
chain query `getInboxMessageStatus(messageHash).call()` /
`getOutboxMessageStatus(messageHash).call()` with the given argument. -/
inductive StatusQueryOutcome where
  | rejected (e : JsError)
  | chainQuery (messageHash : JSVal)
  deriving DecidableEq, Repr

/-- `EIP20Gateway.getOutboxMessageStatus`
(src/src/ContractInteract/EIP20Gateway.js lines 878-884): the only
client-side validation is `typeof messageHash !== 'string'`. -/
def EIP20Gateway.getOutboxMessageStatus (messageHash : JSVal) :
    StatusQueryOutcome :=
  if ¬ typeofIsString messageHash then
    StatusQueryOutcome.rejected JsError.invalidMessageHash
  else StatusQueryOutcome.chainQuery messageHash

/-- `EIP20Gateway.getInboxMessageStatus`
(src/src/ContractInteract/EIP20Gateway.js lines 863-869). -/
def EIP20Gateway.getInboxMessageStatus (messageHash : JSVal) :
    StatusQueryOutcome :=
  if ¬ typeofIsString messageHash then
    StatusQueryOutcome.rejected JsError.invalidMessageHash
  else StatusQueryOutcome.chainQuery messageHash

/-- `EIP20CoGateway.getOutboxMessageStatus`
(src/src/ContractInteract/EIP20CoGateway.js lines 702-708). -/
def EIP20CoGateway.getOutboxMessageStatus (messageHash : JSVal) :
    StatusQueryOutcome :=
  if ¬ typeofIsString messageHash then
    StatusQueryOutcome.rejected JsError.invalidMessageHash
  else StatusQueryOutcome.chainQuery messageHash

/-- `EIP20CoGateway.getInboxMessageStatus`
(src/src/ContractInteract/EIP20CoGateway.js lines 687-693). -/
def EIP20CoGateway.getInboxMessageStatus (messageHash : JSVal) :
    StatusQueryOutcome :=
  if ¬ typeofIsString messageHash then
    StatusQueryOutcome.rejected JsError.invalidMessageHash
  else StatusQueryOutcome.chainQuery messageHash

/-- Outcome of a `getNonce` call: a synchronous throw, a rejected promise, or
the read-only chain query `getNonce(accountAddress).call()`. -/
inductive NonceOutcome where
  | thrown (e : JsError)
  | rejected (e : JsError)
  | chainCall (accountAddress : JSVal)
  deriving DecidableEq, Repr

/-- `EIP20CoGateway.getNonce` (src/src/ContractInteract/EIP20CoGateway.js
lines 655-660): an invalid account address makes the function `throw` a
`TypeError` synchronously. -/
def EIP20CoGateway.getNonce (isAddress : String → Bool)
    (accountAddress : JSVal) : NonceOutcome :=
  if ¬ jsIsAddress isAddress accountAddress then
    NonceOutcome.thrown JsError.invalidAccountAddress
  else NonceOutcome.chainCall accountAddress

/-- `EIP20Gateway.getNonce` (src/src/ContractInteract/EIP20Gateway.js lines
830-836): an invalid account address makes the function return
`Promise.reject` with the same `TypeError`. -/
def EIP20Gateway.getNonce (isAddress : String → Bool)
    (accountAddress : JSVal) : NonceOutcome :=
  if ¬ jsIsAddress isAddress accountAddress then
    NonceOutcome.rejected JsError.invalidAccountAddress
  else NonceOutcome.chainCall accountAddress

/-- The instance-level write-once caches of an `EIP20Gateway` object
(`this._bountyAmount`, `this._baseTokenAddress`, `this._valueTokenAddress`,
`this._stateRootProviderAddress`); `none` models an unset (undefined) field. -/
structure EIP20GatewayState where
  bountyAmount : Option String
  baseTokenAddress : Option String
  valueTokenAddress : Option String
  stateRootProviderAddress : Option String
  deriving DecidableEq, Repr

/-- A freshly constructed `EIP20Gateway`: no cache field set. -/
def EIP20GatewayState.init : EIP20GatewayState := ⟨none, none, none, none⟩

/-- The immutable on-chain constants the gateway contract answers with
(`bounty()`, `baseToken()`, `token()`, `stateRootProvider()`). -/
structure GatewayChain where
  bounty : String
  baseToken : String
  token : String
  stateRootProvider : String
  deriving DecidableEq, Repr

/-- `EIP20Gateway.getBounty` (src/src/ContractInteract/EIP20Gateway.js lines
774-785): if `this._bountyAmount` is truthy, resolve to it without touching
the chain; otherwise call `bounty().call()` and cache the result.  Returns
(value, updated instance state, whether the chain was queried). -/
def EIP20Gateway.getBounty (chain : GatewayChain) (st : EIP20GatewayState) :
    String × EIP20GatewayState × Bool :=
  if jsTruthyOptStr st.bountyAmount then (st.bountyAmount.getD "", st, false)
  else (chain.bounty, { st with bountyAmount := some chain.bounty }, true)

/-- `EIP20Gateway.getBaseToken` (src/src/ContractInteract/EIP20Gateway.js
lines 787-803). -/
def EIP20Gateway.getBaseToken (chain : GatewayChain) (st : EIP20GatewayState) :
    String × EIP20GatewayState × Bool :=
  if jsTruthyOptStr st.baseTokenAddress then
    (st.baseTokenAddress.getD "", st, false)
  else (chain.baseToken, { st with baseTokenAddress := some chain.baseToken },
    true)

/-- `EIP20Gateway.getValueToken` (src/src/ContractInteract/EIP20Gateway.js
lines 805-821). -/
def EIP20Gateway.getValueToken (chain : GatewayChain)
    (st : EIP20GatewayState) : String × EIP20GatewayState × Bool :=
  if jsTruthyOptStr st.valueTokenAddress then
    (st.valueTokenAddress.getD "", st, false)
  else (chain.token, { st with valueTokenAddress := some chain.token }, true)

/-- `EIP20Gateway.getStateRootProviderAddress`
(src/src/ContractInteract/EIP20Gateway.js lines 838-855). -/
def EIP20Gateway.getStateRootProviderAddress (chain : GatewayChain)
    (st : EIP20GatewayState) : String × EIP20GatewayState × Bool :=
  if jsTruthyOptStr st.stateRootProviderAddress then
    (st.stateRootProviderAddress.getD "", st, false)
  else (chain.stateRootProvider,
    { st with stateRootProviderAddress := some chain.stateRootProvider }, true)

/-- The instance-level write-once caches of an `EIP20CoGateway` object
(`this._bountyAmount`, `this._utilityToken`,
`this._stateRootProviderAddress`). -/
structure EIP20CoGatewayState where
  bountyAmount : Option String
  utilityToken : Option String
  stateRootProviderAddress : Option String
  deriving DecidableEq, Repr

/-- A freshly constructed `EIP20CoGateway`: no cache field set. -/
def EIP20CoGatewayState.init : EIP20CoGatewayState := ⟨none, none, none⟩

/-- The immutable on-chain constants the co-gateway contract answers with
(`bounty()`, `utilityToken()`, `stateRootProvider()`). -/
structure CoGatewayChain where
  bounty : String
  utilityToken : String
  stateRootProvider : String
  deriving DecidableEq, Repr

/-- `EIP20CoGateway.getBounty` (src/src/ContractInteract/EIP20CoGateway.js
lines 617-628). -/
def EIP20CoGateway.getBounty (chain : CoGatewayChain)
    (st : EIP20CoGatewayState) : String × EIP20CoGatewayState × Bool :=
  if jsTruthyOptStr st.bountyAmount then (st.bountyAmount.getD "", st, false)
  else (chain.bounty, { st with bountyAmount := some chain.bounty }, true)

/-- `EIP20CoGateway.getUtilityToken`
(src/src/ContractInteract/EIP20CoGateway.js lines 635-646). -/
def EIP20CoGateway.getUtilityToken (chain : CoGatewayChain)
    (st : EIP20CoGatewayState) : String × EIP20CoGatewayState × Bool :=
  if jsTruthyOptStr st.utilityToken then (st.utilityToken.getD "", st, false)
  else (chain.utilityToken, { st with utilityToken := some chain.utilityToken },
    true)

/-- `EIP20CoGateway.getStateRootProviderAddress`
(src/src/ContractInteract/EIP20CoGateway.js lines 667-678). -/
def EIP20CoGateway.getStateRootProviderAddress (chain : CoGatewayChain)
    (st : EIP20CoGatewayState) : String × EIP20CoGatewayState × Bool :=
  if jsTruthyOptStr st.stateRootProviderAddress then
    (st.stateRootProviderAddress.getD "", st, false)
  else (chain.stateRootProvider,
    { st with stateRootProviderAddress := some chain.stateRootProvider }, true)

/-- Runs `n` sequential calls of a cached read operation on one instance,
collecting the returned values, the total number of chain queries, and the
final instance state. -/
def iterateCalls {σ : Type} (f : σ → String × σ × Bool) :
    Nat → σ → List String × Nat × σ
  | 0, st => ([], 0, st)
  | Nat.succ n, st =>
    ((f st).1 :: (iterateCalls f n (f st).2.1).1,
     (if (f st).2.2 then 1 else 0) + (iterateCalls f n (f st).2.1).2.1,
     (iterateCalls f n (f st).2.1).2.2)

/-- Default (all-undefined) `txOptions` object, the value `heap.getD` falls
back to for a dangling reference. -/
def TxOption.undef : TxOption := ⟨JSVal.undef, none, none, none⟩

/-- The option handling of `Utils.sendTransaction` (src/src/utils/Utils.js
lines 63-68) over an explicit object heap (a list of `txOptions` objects
addressed by index), so that JavaScript object identity and mutation are
visible: `Object.assign({}, txOption)` allocates a fresh object copying the
caller's fields, and when the copy's `gas` field is falsy the estimated gas
is written into that fresh object (`txOptions.gas = await tx.estimateGas`).
`estimateGas` is the external estimation result.  Returns the heap after the
call together with the reference to the internal copy. -/
def Utils.sendTransactionOptions (estimateGas : String)
    (heap : List TxOption) (txOptionRef : Nat) : List TxOption × Nat :=
  let txOption := heap.getD txOptionRef TxOption.undef
  let heapAlloc := heap ++ [txOption]
  let txOptionsRef := heap.length
  let txOptionsFinal :=
    if jsTruthyOptStr txOption.gas then txOption
    else { txOption with gas := some estimateGas }
  (heapAlloc.set txOptionsRef txOptionsFinal, txOptionsRef)

/-- C1: for every secret string `s` (and every choice of the external
Keccak-256 function), `Utils.toHashLock` returns exactly the record with
`secret = s`, `unlockSecret = keccak256 s` and
`hashLock = keccak256 (keccak256 s)`; being a total function of its inputs,
it is deterministic. -/
theorem toHashLock_spec (keccak256 : String → String) (s : String) :
    (Utils.toHashLock keccak256 s).secret = s ∧
    (Utils.toHashLock keccak256 s).unlockSecret = keccak256 s ∧
    (Utils.toHashLock keccak256 s).hashLock = keccak256 (keccak256 s) ∧
    Utils.toHashLock keccak256 s =
      { secret := s, unlockSecret := keccak256 s,
        hashLock := keccak256 (keccak256 s) } :=
  ⟨rfl, rfl, rfl, rfl⟩

/-- C2: when the outbox status is `Undeclared`, `DeclaredRevocation` or
`Revoked`, `performProgressRedeem` rejects with `MessageNotProgressable` and
submits zero `progressRedeem` transactions; when it is `Declared`, it invokes
`coGateway.progressRedeem` exactly once. -/
theorem performProgressRedeem_status_policy (st : MessageStatus) :
    (st = MessageStatus.Undeclared ∨ st = MessageStatus.DeclaredRevocation ∨
        st = MessageStatus.Revoked →
      Facilitator.performProgressRedeem st =
        (Except.error FacilitatorError.MessageNotProgressable, 0)) ∧
    (st = MessageStatus.Declared →
      (Facilitator.performProgressRedeem st).2 = 1) := by
  cases st <;>
    exact ⟨fun h => by simp [Facilitator.performProgressRedeem] at h ⊢,
           fun h => by simp [Facilitator.performProgressRedeem] at h ⊢⟩

/-- Witness for C2 at the concrete statuses `Undeclared` and `Declared`. -/
theorem performProgressRedeem_status_policy_witness :
    Facilitator.performProgressRedeem MessageStatus.Undeclared =
      (Except.error FacilitatorError.MessageNotProgressable, 0) ∧
    (Facilitator.performProgressRedeem MessageStatus.Declared).2 = 1 :=
  ⟨(performProgressRedeem_status_policy MessageStatus.Undeclared).1 (Or.inl rfl),
   (performProgressRedeem_status_policy MessageStatus.Declared).2 rfl⟩

/-- C3 counterexample: with target block height 5 and one hundred successive
polls all observing anchored height 3 (committed height never reaching the
target), the wait is still polling; it has not failed with any timeout.  The
operation takes no `timeoutMs` parameter at all, and no branch of the source
produces `anchorWaitTimeout`. -/
theorem waitForStateRootCommit_no_timeout_cex :
    Facilitate.waitForStateRootCommit 5 (List.replicate 100 3) =
      WaitOutcome.stillWaiting ∧
    Facilitate.waitForStateRootCommit 5 (List.replicate 100 3) ≠
      WaitOutcome.anchorWaitTimeout := by
  constructor <;> decide

/-- C3 amended: the anchor wait operation has no timeout.  Whenever every
observed anchored height is at most the target block height, the loop is
still polling after any number of polls — it never terminates with a timeout
failure (and never with success). -/
theorem waitForStateRootCommit_never_times_out (blockNumber : Nat)
    (obs : List Nat) (h : ∀ x ∈ obs, x ≤ blockNumber) :
    Facilitate.waitForStateRootCommit blockNumber obs =
      WaitOutcome.stillWaiting := by
  induction obs with
  | nil => rfl
  | cons a rest ih =>
    have ha : a ≤ blockNumber := h a (by simp)
    simp only [Facilitate.waitForStateRootCommit, ge_iff_le, ha, if_pos]
    exact ih (fun x hx => h x (List.mem_cons_of_mem a hx))

/-- Witness for C3's amended theorem at target 5 with three polls observing 0. -/
theorem waitForStateRootCommit_never_times_out_witness :
    Facilitate.waitForStateRootCommit 5 (List.replicate 3 0) =
      WaitOutcome.stillWaiting :=
  waitForStateRootCommit_never_times_out 5 (List.replicate 3 0) (by decide)

/-- C4 counterexample: with target block height 5, the first poll observing
anchored height 5 (equal to the target, so committed height ≥ target) does
not end the wait with success — the loop keeps polling, because the source
waits while `transactionBlockNumber.gte(latestBlockHeight)`. -/
theorem waitForStateRootCommit_geq_not_success_cex :
    (5 : Nat) ≥ 5 ∧
    Facilitate.waitForStateRootCommit 5 [5] = WaitOutcome.stillWaiting := by
  constructor <;> decide

/-- C4 amended: the wait ends with success exactly when a poll observes an
anchored height strictly greater than the target; in particular the first
poll observing a strictly greater height ends the wait successfully. -/
theorem waitForStateRootCommit_success_on_strictly_greater (blockNumber : Nat)
    (latestBlockHeight : Nat) (rest : List Nat)
    (h : blockNumber < latestBlockHeight) :
    Facilitate.waitForStateRootCommit blockNumber
      (latestBlockHeight :: rest) = WaitOutcome.success := by
  simp only [Facilitate.waitForStateRootCommit, ge_iff_le]
  rw [if_neg (by omega)]

/-- Witness for C4's amended theorem: target 5, first observed height 6. -/
theorem waitForStateRootCommit_success_on_strictly_greater_witness :
    Facilitate.waitForStateRootCommit 5 [6] = WaitOutcome.success :=
  waitForStateRootCommit_success_on_strictly_greater 5 6 [] (by decide)

/-- C5: for every amount whose bn.js parse is zero or negative (including the
string `"0"`), with otherwise valid transaction options, `stakeRawTx` and
`redeemRawTx` reject with the amount-must-be-greater-than-zero error, and the
wrapping `stake` and `redeem` operations reject with the same error — the
outcome is a rejection, never a constructed contract-method call (`tx`) and
never a submitted transaction (`sent`), so no contract method is invoked and
no network call happens. -/
theorem stake_redeem_reject_nonpositive_amount
    (bnParse : String → Option Int) (isAddress : String → Bool)
    (amount beneficiary gasPrice gasLimit nonce hashLock : JSVal)
    (opts : TxOption) (v : Int)
    (hparse : jsBNParse bnParse amount = some v) (hle : v ≤ 0)
    (hfrom : jsIsAddress isAddress opts.fromAddress = true) :
    EIP20Gateway.stakeRawTx bnParse isAddress amount beneficiary gasPrice
        gasLimit nonce hashLock
      = RawTxResult.rejected JsError.stakeAmountNotGreaterThanZero ∧
    EIP20CoGateway.redeemRawTx bnParse isAddress amount beneficiary gasPrice
        gasLimit nonce hashLock
      = RawTxResult.rejected JsError.redeemAmountNotGreaterThanZero ∧
    EIP20Gateway.stake bnParse isAddress amount beneficiary gasPrice gasLimit
        nonce hashLock (some opts)
      = SendOutcome.rejected JsError.stakeAmountNotGreaterThanZero ∧
    EIP20CoGateway.redeem bnParse isAddress amount beneficiary gasPrice
        gasLimit nonce hashLock (some opts)
      = SendOutcome.rejected JsError.redeemAmountNotGreaterThanZero := by
  have hgt : ¬ v > 0 := by omega
  have h1 : EIP20Gateway.stakeRawTx bnParse isAddress amount beneficiary
      gasPrice gasLimit nonce hashLock
      = RawTxResult.rejected JsError.stakeAmountNotGreaterThanZero := by
    unfold EIP20Gateway.stakeRawTx
    rw [hparse]
    simp [hgt]
  have h2 : EIP20CoGateway.redeemRawTx bnParse isAddress amount beneficiary
      gasPrice gasLimit nonce hashLock
      = RawTxResult.rejected JsError.redeemAmountNotGreaterThanZero := by
    unfold EIP20CoGateway.redeemRawTx
    rw [hparse]
    simp [hgt]
  refine ⟨h1, h2, ?_, ?_⟩
  · unfold EIP20Gateway.stake
    rw [h1]
    simp [hfrom]
  · unfold EIP20CoGateway.redeem
    rw [h2]
    simp [hfrom]

/-- Witness for C5 at the concrete amount string `"0"`. -/
theorem stake_redeem_reject_nonpositive_amount_witness :
    EIP20Gateway.stakeRawTx bnParseModel isAddressModel (JSVal.str "0")
        (JSVal.str "0x1111111111111111111111111111111111111111")
        (JSVal.str "1") (JSVal.str "1") (JSVal.str "1") (JSVal.str "0xabc")
      = RawTxResult.rejected JsError.stakeAmountNotGreaterThanZero ∧
    EIP20CoGateway.redeemRawTx bnParseModel isAddressModel (JSVal.str "0")
        (JSVal.str "0x1111111111111111111111111111111111111111")
        (JSVal.str "1") (JSVal.str "1") (JSVal.str "1") (JSVal.str "0xabc")
      = RawTxResult.rejected JsError.redeemAmountNotGreaterThanZero ∧
    EIP20Gateway.stake bnParseModel isAddressModel (JSVal.str "0")
        (JSVal.str "0x1111111111111111111111111111111111111111")
        (JSVal.str "1") (JSVal.str "1") (JSVal.str "1") (JSVal.str "0xabc")
        (some ⟨JSVal.str "0x2222222222222222222222222222222222222222",
          none, none, none⟩)
      = SendOutcome.rejected JsError.stakeAmountNotGreaterThanZero ∧
    EIP20CoGateway.redeem bnParseModel isAddressModel (JSVal.str "0")
        (JSVal.str "0x1111111111111111111111111111111111111111")
        (JSVal.str "1") (JSVal.str "1") (JSVal.str "1") (JSVal.str "0xabc")
        (some ⟨JSVal.str "0x2222222222222222222222222222222222222222",
          none, none, none⟩)
      = SendOutcome.rejected JsError.redeemAmountNotGreaterThanZero :=
  stake_redeem_reject_nonpositive_amount bnParseModel isAddressModel
    (JSVal.str "0")
    (JSVal.str "0x1111111111111111111111111111111111111111")
    (JSVal.str "1") (JSVal.str "1") (JSVal.str "1") (JSVal.str "0xabc")
    ⟨JSVal.str "0x2222222222222222222222222222222222222222", none, none, none⟩
    0 (by decide) (by decide) (by decide)

/-- C10: when the bn.js constructor cannot parse the amount, `stakeRawTx` and
`redeemRawTx` throw synchronously (the exception from `new BN(amount)`
escapes the non-async function) instead of returning a typed rejected
promise; and the guarded amount-must-be-greater-than-zero rejection is
produced only for amounts the constructor does parse to a value ≤ 0. -/
theorem rawTx_amount_parse_behavior
    (bnParse : String → Option Int) (isAddress : String → Bool)
    (amount beneficiary gasPrice gasLimit nonce hashLock : JSVal) :
    (jsBNParse bnParse amount = none →
      EIP20Gateway.stakeRawTx bnParse isAddress amount beneficiary gasPrice
          gasLimit nonce hashLock
        = RawTxResult.thrown JsError.bnInvalidNumber ∧
      EIP20CoGateway.redeemRawTx bnParse isAddress amount beneficiary gasPrice
          gasLimit nonce hashLock
        = RawTxResult.thrown JsError.bnInvalidNumber) ∧
    (EIP20Gateway.stakeRawTx bnParse isAddress amount beneficiary gasPrice
          gasLimit nonce hashLock
        = RawTxResult.rejected JsError.stakeAmountNotGreaterThanZero →
      ∃ v, jsBNParse bnParse amount = some v ∧ v ≤ 0) ∧
    (EIP20CoGateway.redeemRawTx bnParse isAddress amount beneficiary gasPrice
          gasLimit nonce hashLock
        = RawTxResult.rejected JsError.redeemAmountNotGreaterThanZero →
      ∃ v, jsBNParse bnParse amount = some v ∧ v ≤ 0) := by
  cases h : jsBNParse bnParse amount with
  | none =>
    refine ⟨fun _ => ?_, fun heq => ?_, fun heq => ?_⟩
    · constructor
      · unfold EIP20Gateway.stakeRawTx
        rw [h]
      · unfold EIP20CoGateway.redeemRawTx
        rw [h]
    · unfold EIP20Gateway.stakeRawTx at heq
      rw [h] at heq
      simp at heq
    · unfold EIP20CoGateway.redeemRawTx at heq
      rw [h] at heq
      simp at heq
  | some v =>
    refine ⟨fun hnone => absurd hnone (by simp), fun heq => ?_, fun heq => ?_⟩
    · by_cases hv : v > 0
      · simp only [EIP20Gateway.stakeRawTx, h] at heq
        rw [if_neg (not_not_intro hv)] at heq
        split_ifs at heq <;> simp_all
      · exact ⟨v, rfl, by omega⟩
    · by_cases hv : v > 0
      · simp only [EIP20CoGateway.redeemRawTx, h] at heq
        rw [if_neg (not_not_intro hv)] at heq
        split_ifs at heq <;> simp_all
      · exact ⟨v, rfl, by omega⟩

/-- Witness for C10 at the concrete unparseable amount string `"1.5"`. -/
theorem rawTx_amount_parse_behavior_witness :
    EIP20Gateway.stakeRawTx bnParseModel isAddressModel (JSVal.str "1.5")
        (JSVal.str "0x1111111111111111111111111111111111111111")
        (JSVal.str "1") (JSVal.str "1") (JSVal.str "1") (JSVal.str "0xabc")
      = RawTxResult.thrown JsError.bnInvalidNumber ∧
    EIP20CoGateway.redeemRawTx bnParseModel isAddressModel (JSVal.str "1.5")
        (JSVal.str "0x1111111111111111111111111111111111111111")
        (JSVal.str "1") (JSVal.str "1") (JSVal.str "1") (JSVal.str "0xabc")
      = RawTxResult.thrown JsError.bnInvalidNumber :=
  (rawTx_amount_parse_behavior bnParseModel isAddressModel (JSVal.str "1.5")
    (JSVal.str "0x1111111111111111111111111111111111111111")
    (JSVal.str "1") (JSVal.str "1") (JSVal.str "1") (JSVal.str "0xabc")).1
    (by decide)

/-- Helper: once the cache predicate `P` holds and makes every call a cache
hit returning `value`, any number of further sequential calls returns
`value` each time with zero chain queries and an unchanged instance. -/
theorem iterateCalls_stable {σ : Type} (f : σ → String × σ × Bool)
    (value : String) (P : σ → Prop)
    (hstable : ∀ st, P st → f st = (value, st, false)) :
    ∀ n st, P st → iterateCalls f n st = (List.replicate n value, 0, st) := by
  intro n
  induction n with
  | zero => intro st _; rfl
  | succ n ih =>
    intro st h
    simp [iterateCalls, hstable st h, ih st h, List.replicate_succ]

/-- Helper: a cached read whose first call on `st0` queries the chain once,
returns `value` and moves the instance into a cache-hit state satisfying `P`
answers every one of `n` sequential calls with `value` while querying the
chain at most once in total. -/
theorem iterateCalls_cached {σ : Type} (f : σ → String × σ × Bool)
    (value : String) (P : σ → Prop) (st0 st1 : σ)
    (hfirst : f st0 = (value, st1, true)) (hP : P st1)
    (hstable : ∀ st, P st → f st = (value, st, false)) (n : Nat) :
    (iterateCalls f n st0).1 = List.replicate n value ∧
    (iterateCalls f n st0).2.1 ≤ 1 := by
  cases n with
  | zero => exact ⟨rfl, by simp [iterateCalls]⟩
  | succ n =>
    have h := iterateCalls_stable f value P hstable n st1 hP
    constructor
    · simp [iterateCalls, hfirst, h, List.replicate_succ]
    · simp [iterateCalls, hfirst, h]

/-- C6: across any number `n` of sequential calls on one freshly constructed
instance, each cached read (`getBounty`, `getBaseToken`, `getValueToken`,
`getStateRootProviderAddress` on `EIP20Gateway`; `getBounty`,
`getUtilityToken`, `getStateRootProviderAddress` on `EIP20CoGateway`)
queries the underlying chain at most once and returns the same on-chain
value on every call.  The hypotheses record that the chain answers with
non-empty strings (a `uint`/address `.call()` result is never the empty
string), which is what makes the JavaScript truthiness cache guard a
faithful presence check. -/
theorem cached_reads_query_at_most_once (gchain : GatewayChain)
    (cchain : CoGatewayChain) (n : Nat)
    (h1 : gchain.bounty.isEmpty = false)
    (h2 : gchain.baseToken.isEmpty = false)
    (h3 : gchain.token.isEmpty = false)
    (h4 : gchain.stateRootProvider.isEmpty = false)
    (h5 : cchain.bounty.isEmpty = false)
    (h6 : cchain.utilityToken.isEmpty = false)
    (h7 : cchain.stateRootProvider.isEmpty = false) :
    ((iterateCalls (EIP20Gateway.getBounty gchain) n EIP20GatewayState.init).1
        = List.replicate n gchain.bounty ∧
      (iterateCalls (EIP20Gateway.getBounty gchain) n
          EIP20GatewayState.init).2.1 ≤ 1) ∧
    ((iterateCalls (EIP20Gateway.getBaseToken gchain) n
          EIP20GatewayState.init).1 = List.replicate n gchain.baseToken ∧
      (iterateCalls (EIP20Gateway.getBaseToken gchain) n
          EIP20GatewayState.init).2.1 ≤ 1) ∧
    ((iterateCalls (EIP20Gateway.getValueToken gchain) n
          EIP20GatewayState.init).1 = List.replicate n gchain.token ∧
      (iterateCalls (EIP20Gateway.getValueToken gchain) n
          EIP20GatewayState.init).2.1 ≤ 1) ∧
    ((iterateCalls (EIP20Gateway.getStateRootProviderAddress gchain) n
          EIP20GatewayState.init).1
        = List.replicate n gchain.stateRootProvider ∧
      (iterateCalls (EIP20Gateway.getStateRootProviderAddress gchain) n
          EIP20GatewayState.init).2.1 ≤ 1) ∧
    ((iterateCalls (EIP20CoGateway.getBounty cchain) n
          EIP20CoGatewayState.init).1 = List.replicate n cchain.bounty ∧
      (iterateCalls (EIP20CoGateway.getBounty cchain) n
          EIP20CoGatewayState.init).2.1 ≤ 1) ∧
    ((iterateCalls (EIP20CoGateway.getUtilityToken cchain) n
          EIP20CoGatewayState.init).1 = List.replicate n cchain.utilityToken ∧
      (iterateCalls (EIP20CoGateway.getUtilityToken cchain) n
          EIP20CoGatewayState.init).2.1 ≤ 1) ∧
    ((iterateCalls (EIP20CoGateway.getStateRootProviderAddress cchain) n
          EIP20CoGatewayState.init).1
        = List.replicate n cchain.stateRootProvider ∧
      (iterateCalls (EIP20CoGateway.getStateRootProviderAddress cchain) n
          EIP20CoGatewayState.init).2.1 ≤ 1) := by
  refine ⟨?_, ?_, ?_, ?_, ?_, ?_, ?_⟩
  · exact iterateCalls_cached _ gchain.bounty
      (fun st => st.bountyAmount = some gchain.bounty)
      EIP20GatewayState.init ⟨some gchain.bounty, none, none, none⟩ rfl rfl
      (fun st hst => by
        simp [EIP20Gateway.getBounty, hst, jsTruthyOptStr, h1]) n
  · exact iterateCalls_cached _ gchain.baseToken
      (fun st => st.baseTokenAddress = some gchain.baseToken)
      EIP20GatewayState.init ⟨none, some gchain.baseToken, none, none⟩ rfl rfl
      (fun st hst => by
        simp [EIP20Gateway.getBaseToken, hst, jsTruthyOptStr, h2]) n
  · exact iterateCalls_cached _ gchain.token
      (fun st => st.valueTokenAddress = some gchain.token)
      EIP20GatewayState.init ⟨none, none, some gchain.token, none⟩ rfl rfl
      (fun st hst => by
        simp [EIP20Gateway.getValueToken, hst, jsTruthyOptStr, h3]) n
  · exact iterateCalls_cached _ gchain.stateRootProvider
      (fun st => st.stateRootProviderAddress = some gchain.stateRootProvider)
      EIP20GatewayState.init
      ⟨none, none, none, some gchain.stateRootProvider⟩ rfl rfl
      (fun st hst => by
        simp [EIP20Gateway.getStateRootProviderAddress, hst, jsTruthyOptStr,
          h4]) n
  · exact iterateCalls_cached _ cchain.bounty
      (fun st => st.bountyAmount = some cchain.bounty)
      EIP20CoGatewayState.init ⟨some cchain.bounty, none, none⟩ rfl rfl
      (fun st hst => by
        simp [EIP20CoGateway.getBounty, hst, jsTruthyOptStr, h5]) n
  · exact iterateCalls_cached _ cchain.utilityToken
      (fun st => st.utilityToken = some cchain.utilityToken)
      EIP20CoGatewayState.init ⟨none, some cchain.utilityToken, none⟩ rfl rfl
      (fun st hst => by
        simp [EIP20CoGateway.getUtilityToken, hst, jsTruthyOptStr, h6]) n
  · exact iterateCalls_cached _ cchain.stateRootProvider
      (fun st => st.stateRootProviderAddress = some cchain.stateRootProvider)
      EIP20CoGatewayState.init
      ⟨none, none, some cchain.stateRootProvider⟩ rfl rfl
      (fun st hst => by
        simp [EIP20CoGateway.getStateRootProviderAddress, hst, jsTruthyOptStr,
          h7]) n

/-- Witness for C6: three sequential `getBounty` calls on a fresh gateway
with on-chain bounty `"1000"` return `"1000"` each time with at most one
chain query (and likewise for the co-gateway). -/
theorem cached_reads_query_at_most_once_witness :
    (iterateCalls (EIP20Gateway.getBounty ⟨"1000", "0xb", "0xt", "0xs"⟩) 3
        EIP20GatewayState.init).1 = List.replicate 3 "1000" ∧
    (iterateCalls (EIP20Gateway.getBounty ⟨"1000", "0xb", "0xt", "0xs"⟩) 3
        EIP20GatewayState.init).2.1 ≤ 1 ∧
    (iterateCalls (EIP20CoGateway.getUtilityToken ⟨"7", "0xu", "0xs"⟩) 3
        EIP20CoGatewayState.init).1 = List.replicate 3 "0xu" := by
  have h := cached_reads_query_at_most_once ⟨"1000", "0xb", "0xt", "0xs"⟩
    ⟨"7", "0xu", "0xs"⟩ 3 (by decide) (by decide) (by decide) (by decide)
    (by decide) (by decide) (by decide)
  exact ⟨h.1.1, h.1.2, h.2.2.2.2.2.1.1⟩

/-- C7 counterexample: the string `"xyz"` is not a well-formed 32-byte hex
identifier, yet every one of the four message-status reads forwards it to
the on-chain query with no client-side error — the only client-side
validation is `typeof messageHash !== 'string'`, so a malformed string is
not detected before querying the chain. -/
theorem getMessageStatus_malformed_hash_cex :
    isWellFormed32ByteHex "xyz" = false ∧
    EIP20Gateway.getOutboxMessageStatus (JSVal.str "xyz")
      = StatusQueryOutcome.chainQuery (JSVal.str "xyz") ∧
    EIP20Gateway.getInboxMessageStatus (JSVal.str "xyz")
      = StatusQueryOutcome.chainQuery (JSVal.str "xyz") ∧
    EIP20CoGateway.getOutboxMessageStatus (JSVal.str "xyz")
      = StatusQueryOutcome.chainQuery (JSVal.str "xyz") ∧
    EIP20CoGateway.getInboxMessageStatus (JSVal.str "xyz")
      = StatusQueryOutcome.chainQuery (JSVal.str "xyz") := by
  refine ⟨by decide, by decide, by decide, by decide, by decide⟩

/-- C7 amended: the client-side precondition check of the message-status
reads is exactly `typeof messageHash === 'string'`: every non-string input
is rejected with the invalid-message-hash error before querying the chain,
and every string input — well-formed 32-byte hex or not — is forwarded to
the chain query. -/
theorem getMessageStatus_validation_is_string_only (v : JSVal) :
    (typeofIsString v = false →
      EIP20Gateway.getOutboxMessageStatus v
          = StatusQueryOutcome.rejected JsError.invalidMessageHash ∧
        EIP20Gateway.getInboxMessageStatus v
          = StatusQueryOutcome.rejected JsError.invalidMessageHash ∧
        EIP20CoGateway.getOutboxMessageStatus v
          = StatusQueryOutcome.rejected JsError.invalidMessageHash ∧
        EIP20CoGateway.getInboxMessageStatus v
          = StatusQueryOutcome.rejected JsError.invalidMessageHash) ∧
    (typeofIsString v = true →
      EIP20Gateway.getOutboxMessageStatus v
          = StatusQueryOutcome.chainQuery v ∧
        EIP20Gateway.getInboxMessageStatus v
          = StatusQueryOutcome.chainQuery v ∧
        EIP20CoGateway.getOutboxMessageStatus v
          = StatusQueryOutcome.chainQuery v ∧
        EIP20CoGateway.getInboxMessageStatus v
          = StatusQueryOutcome.chainQuery v) := by
  cases v <;>
    simp [EIP20Gateway.getOutboxMessageStatus,
      EIP20Gateway.getInboxMessageStatus,
      EIP20CoGateway.getOutboxMessageStatus,
      EIP20CoGateway.getInboxMessageStatus, typeofIsString]

/-- Witness for C7's amended theorem at `undefined` and at the malformed
string `"zz"`. -/
theorem getMessageStatus_validation_is_string_only_witness :
    EIP20Gateway.getOutboxMessageStatus JSVal.undef
      = StatusQueryOutcome.rejected JsError.invalidMessageHash ∧
    EIP20CoGateway.getInboxMessageStatus (JSVal.str "zz")
      = StatusQueryOutcome.chainQuery (JSVal.str "zz") :=
  ⟨((getMessageStatus_validation_is_string_only JSVal.undef).1 rfl).1,
   ((getMessageStatus_validation_is_string_only (JSVal.str "zz")).2
      rfl).2.2.2⟩

/-- Helper: writing at the index just past `l` in `l ++ [a]` replaces `a`. -/
theorem set_append_singleton_length {α : Type} (l : List α) (a b : α) :
    (l ++ [a]).set l.length b = l ++ [b] := by
  induction l with
  | nil => rfl
  | cons x xs ih => simp [List.set, ih]

/-- C8: `Utils.sendTransaction` (src/src/utils/Utils.js lines 63-68) leaves
the caller's `txOption` object unchanged: `Object.assign({}, txOption)`
allocates a fresh object, the estimated gas is written only into that fresh
copy, the copy is a different object from the caller's, and the copy ends up
with the original fields except that an absent (falsy) `gas` is filled with
the estimate. -/
theorem sendTransaction_preserves_caller_txOption (estimateGas : String)
    (heap : List TxOption) (txOptionRef : Nat)
    (h : txOptionRef < heap.length) :
    ((Utils.sendTransactionOptions estimateGas heap txOptionRef).1.get?
        txOptionRef = heap.get? txOptionRef) ∧
    (Utils.sendTransactionOptions estimateGas heap txOptionRef).2
      ≠ txOptionRef ∧
    ((Utils.sendTransactionOptions estimateGas heap txOptionRef).1.get?
        (Utils.sendTransactionOptions estimateGas heap txOptionRef).2
      = some (if jsTruthyOptStr (heap.getD txOptionRef TxOption.undef).gas
          then heap.getD txOptionRef TxOption.undef
          else { heap.getD txOptionRef TxOption.undef with
                  gas := some estimateGas })) := by
  have e : Utils.sendTransactionOptions estimateGas heap txOptionRef
      = ((heap ++ [heap.getD txOptionRef TxOption.undef]).set heap.length
          (if jsTruthyOptStr (heap.getD txOptionRef TxOption.undef).gas
            then heap.getD txOptionRef TxOption.undef
            else { heap.getD txOptionRef TxOption.undef with
                    gas := some estimateGas }), heap.length) := rfl
  rw [e]
  refine ⟨?_, ?_, ?_⟩
  · dsimp only
    rw [set_append_singleton_length]
    exact List.get?_append h
  · dsimp only
    omega
  · dsimp only
    rw [set_append_singleton_length]
    exact List.get?_concat_length heap _

/-- Witness for C8: a one-object heap whose txOptions has no `gas` field;
after the call the caller's object is unchanged. -/
theorem sendTransaction_preserves_caller_txOption_witness :
    (Utils.sendTransactionOptions "21000"
        [⟨JSVal.str "0x2222222222222222222222222222222222222222", none, none,
          none⟩] 0).1.get? 0
      = some ⟨JSVal.str "0x2222222222222222222222222222222222222222", none,
          none, none⟩ := by
  have h := sendTransaction_preserves_caller_txOption "21000"
    [⟨JSVal.str "0x2222222222222222222222222222222222222222", none, none,
      none⟩] 0 (by decide)
  rw [h.1]
  rfl

/-- C9: for every account address the external validator rejects (including
any non-string value), `EIP20CoGateway.getNonce` throws its `TypeError`
synchronously, while `EIP20Gateway.getNonce` returns a rejected promise
carrying the same invalid-account-address error: the same validation failure
is delivered through different channels. -/
theorem getNonce_error_channel_asymmetry (isAddress : String → Bool)
    (accountAddress : JSVal)
    (h : jsIsAddress isAddress accountAddress = false) :
    EIP20CoGateway.getNonce isAddress accountAddress
      = NonceOutcome.thrown JsError.invalidAccountAddress ∧
    EIP20Gateway.getNonce isAddress accountAddress
      = NonceOutcome.rejected JsError.invalidAccountAddress := by
  constructor <;> simp [EIP20CoGateway.getNonce, EIP20Gateway.getNonce, h]

/-- Witness for C9 at the concrete invalid address `undefined`. -/
theorem getNonce_error_channel_asymmetry_witness :
    EIP20CoGateway.getNonce isAddressModel JSVal.undef
      = NonceOutcome.thrown JsError.invalidAccountAddress ∧
    EIP20Gateway.getNonce isAddressModel JSVal.undef
      = NonceOutcome.rejected JsError.invalidAccountAddress :=
  getNonce_error_channel_asymmetry isAddressModel JSVal.undef rfl
